import Mathlib

set_option maxRecDepth 100000

/-!
Verification of `x_watch.py` (13eastwood/x-watcher) against its
natural-language specification.

The script is shallowly embedded: every Python function of the source is
translated into an executable Lean definition over explicit inputs
(environment variables, the state-file content, and the two HTTP responses),
and the observable behaviour of a run (exit status, printed lines, network
calls, file reads and writes) is collected in an `Effects` record.

Strings are modelled as Lean `String`s, but all computation is performed on
the underlying `List Char` so that every definition reduces inside the
kernel. Python compares strings by code points; `Char.toNat` gives the same
order.
-/

/-! ## Character and string helpers -/

/-- The characters `str.strip()` removes (ASCII whitespace). -/
def isPyWs (c : Char) : Bool :=
  c = ' ' ∨ c = '\t' ∨ c = '\n' ∨ c = '\r' ∨ c = '\x0b' ∨ c = '\x0c'

/-- `str.strip()` on a character list: drop whitespace from both ends. -/
def pyStripChars (cs : List Char) : List Char :=
  ((cs.dropWhile isPyWs).reverse.dropWhile isPyWs).reverse

/-- `.strip()` for `String`. -/
def pyStrip (s : String) : String := String.mk (pyStripChars s.data)

/-- `.replace("\n", " ")`: newline-for-space is one-to-one on characters. -/
def replaceNlChars (cs : List Char) : List Char :=
  cs.map (fun c => if c = '\n' then ' ' else c)

/-- Number of characters of a string (Python `len`). -/
def strLen (s : String) : Nat := s.data.length

/-- Python slicing `s[:n]` by characters. -/
def takeChars (n : Nat) (s : String) : String := String.mk (s.data.take n)

/-- `str.lower()` on one ASCII character. -/
def pyLowerChar (c : Char) : Char :=
  if 'A' ≤ c ∧ c ≤ 'Z' then Char.ofNat (c.toNat + 32) else c

/-- `str.lower()` (ASCII letters; the handles in play are ASCII). -/
def pyLower (s : String) : String := String.mk (s.data.map pyLowerChar)

/-- Decimal digit test. -/
def isDigitCh (c : Char) : Bool := '0' ≤ c ∧ c ≤ '9'

/-- Value of a digit string, most significant first (accumulator form). -/
def digitsToNat (cs : List Char) : Nat :=
  cs.foldl (fun acc c => acc * 10 + (c.toNat - 48)) 0

/-- Numeric value of a string of decimal digits; `none` if empty or not all
digits. This is the specification-side numeric reading of a post id; the
source never converts ids to numbers. -/
def strToNat? (s : String) : Option Nat :=
  if s.data ≠ [] ∧ s.data.all isDigitCh then some (digitsToNat s.data) else none

/-- Decimal digits of a natural number (fuel-recursive so it reduces). -/
def natToDecAux : Nat → Nat → List Char
  | 0, _ => []
  | _ + 1, 0 => []
  | fuel + 1, n => natToDecAux fuel (n / 10) ++ [Char.ofNat (48 + n % 10)]

/-- Decimal rendering of a natural number. -/
def natToDec (n : Nat) : String :=
  if n = 0 then "0" else String.mk (natToDecAux (n + 1) n)

/-- Decimal rendering of an integer. -/
def intToDec (i : Int) : String :=
  if i < 0 then "-" ++ natToDec i.natAbs else natToDec i.natAbs

/-! ## Lexicographic order on code points

Python's `list.sort(key=lambda t: t["id"])` compares the id *strings*
lexicographically by code point. -/

/-- Python `<` on strings, as code-point-lexicographic order on char lists. -/
def lexLtb : List Char → List Char → Bool
  | _, [] => false
  | [], _ :: _ => true
  | c :: cs, d :: ds => c.toNat < d.toNat || (c.toNat == d.toNat && lexLtb cs ds)

/-- Python `<=` on strings. -/
def lexLeb (a b : List Char) : Bool := !(lexLtb b a)

theorem lexLtb_irrefl (a : List Char) : lexLtb a a = false := by
  induction a with
  | nil => rfl
  | cons c cs ih => simp [lexLtb, ih]

theorem lexLtb_trans {a b c : List Char}
    (hab : lexLtb a b = true) (hbc : lexLtb b c = true) : lexLtb a c = true := by
  induction a generalizing b c with
  | nil =>
    cases c with
    | nil =>
      cases b with
      | nil => exact hab
      | cons d ds => simp [lexLtb] at hbc
    | cons e es => simp [lexLtb]
  | cons x xs ih =>
    cases b with
    | nil => simp [lexLtb] at hab
    | cons y ys =>
      cases c with
      | nil => simp [lexLtb] at hbc
      | cons z zs =>
        simp only [lexLtb, Bool.or_eq_true, Bool.and_eq_true, beq_iff_eq,
          decide_eq_true_eq] at hab hbc ⊢
        rcases hab with h1 | ⟨h1, h1'⟩ <;> rcases hbc with h2 | ⟨h2, h2'⟩
        · exact Or.inl (h1.trans h2)
        · exact Or.inl (h2 ▸ h1)
        · exact Or.inl (h1 ▸ h2)
        · exact Or.inr ⟨h1.trans h2, ih h1' h2'⟩

theorem lexLtb_connex {a b : List Char}
    (hab : lexLtb a b = false) (hba : lexLtb b a = false) : a = b := by
  induction a generalizing b with
  | nil =>
    cases b with
    | nil => rfl
    | cons d ds => simp [lexLtb] at hab
  | cons x xs ih =>
    cases b with
    | nil => simp [lexLtb] at hba
    | cons y ys =>
      simp only [lexLtb, Bool.or_eq_false_iff, Bool.and_eq_false_iff, beq_eq_false_iff_ne,
        ne_eq, decide_eq_false_iff_not, Nat.not_lt] at hab hba
      obtain ⟨hxy, h1⟩ := hab
      obtain ⟨hyx, h2⟩ := hba
      have hxyeq : x.toNat = y.toNat := Nat.le_antisymm hyx hxy
      have hx : x = y := by
        have hx1 := Char.ofNat_toNat x
        have hx2 := Char.ofNat_toNat y
        rw [← hx1, ← hx2, hxyeq]
      subst hx
      rcases h1 with h1 | h1
      · exact absurd hxyeq h1
      · rcases h2 with h2 | h2
        · exact absurd rfl h2
        · exact congrArg (x :: ·) (ih h1 h2)

theorem lexLeb_total (a b : List Char) : lexLeb a b = true ∨ lexLeb b a = true := by
  simp only [lexLeb, Bool.not_eq_true']
  by_cases h1 : lexLtb b a = true
  · by_cases h2 : lexLtb a b = true
    · have h3 := lexLtb_trans h1 h2
      rw [lexLtb_irrefl] at h3
      exact Bool.noConfusion h3
    · right
      simpa using h2
  · left
    simpa using h1

theorem lexLeb_trans {a b c : List Char}
    (hab : lexLeb a b = true) (hbc : lexLeb b c = true) : lexLeb a c = true := by
  simp only [lexLeb, Bool.not_eq_true'] at hab hbc ⊢
  cases hca : lexLtb c a
  · rfl
  · exfalso
    by_cases hbc2 : lexLtb b c = true
    · have hba := lexLtb_trans hbc2 hca
      rw [hab] at hba
      exact Bool.noConfusion hba
    · have hbceq : b = c := lexLtb_connex (by simpa using hbc2) hbc
      subst hbceq
      rw [hab] at hca
      exact Bool.noConfusion hca

/-- `lexLeb` and strictness: two `lexLeb`-comparable unequal lists are
strictly ordered. -/
theorem lexLtb_of_leb_ne {a b : List Char}
    (h : lexLeb a b = true) (hne : a ≠ b) : lexLtb a b = true := by
  cases hab : lexLtb a b
  · exfalso
    apply hne
    exact lexLtb_connex hab (by simpa [lexLeb, Bool.not_eq_true'] using h)
  · rfl

/-! ## JSON values

`json.loads` / `json.dumps` work on this value type. Objects are ordered
association lists, mirroring Python dict insertion order; floats do not
occur in any data this program handles and are not modelled. -/

inductive Json where
  | jnull
  | jbool (b : Bool)
  | jnum (n : Int)
  | jstr (s : String)
  | jarr (elems : List Json)
  | jobj (fields : List (String × Json))

/-- First-match lookup, `d[k]` / `d.get(k)` on a dict. Parsed objects never
hold duplicate keys (see `pySetItem` below), so first match is the match. -/
def dictGet (fields : List (String × Json)) (k : String) : Option Json :=
  match fields with
  | [] => none
  | (k', v') :: rest => if k' = k then some v' else dictGet rest k

/-- Python `d[k] = v`: update in place when the key exists (insertion order
kept), append otherwise. -/
def pySetItem (fields : List (String × Json)) (k : String) (v : Json) :
    List (String × Json) :=
  match fields with
  | [] => [(k, v)]
  | (k', v') :: rest =>
    if k' = k then (k', v) :: rest else (k', v') :: pySetItem rest k v

/-! ### Serialization: `json.dumps(state, indent=2)` -/

/-- One hex digit, lowercase, as emitted by `json.dumps` escapes. -/
def hexDigit (n : Nat) : Char :=
  if n < 10 then Char.ofNat (48 + n) else Char.ofNat (87 + n)

/-- Four hex digits of a code point below 0x10000 (the data this program
serializes is ASCII, so the astral-plane surrogate-pair case is not
modelled). -/
def hex4 (n : Nat) : String :=
  String.mk [hexDigit (n / 4096 % 16), hexDigit (n / 256 % 16),
    hexDigit (n / 16 % 16), hexDigit (n % 16)]

/-- `json.dumps` escaping of one character (default `ensure_ascii=True`). -/
def jsonEscapeChar (c : Char) : String :=
  if c = '"' then "\\\""
  else if c = '\\' then "\\\\"
  else if c = '\n' then "\\n"
  else if c = '\t' then "\\t"
  else if c = '\r' then "\\r"
  else if c.toNat < 32 ∨ 126 < c.toNat then "\\u" ++ hex4 c.toNat
  else String.mk [c]

/-- A JSON string literal with quotes and escapes. -/
def jsonQuote (s : String) : String :=
  "\"" ++ String.join (s.data.map jsonEscapeChar) ++ "\""

/-- `n` spaces. -/
def spaces (n : Nat) : String := String.mk (List.replicate n ' ')

/-- Join rendered lines with a separator (`",\n".join` shape). -/
def joinSep (sep : String) : List String → String
  | [] => ""
  | [x] => x
  | x :: y :: rest => x ++ sep ++ joinSep sep (y :: rest)

mutual

/-- `json.dumps(v, indent=2)` at the given current indentation. -/
def dumpsVal : Json → Nat → String
  | .jnull, _ => "null"
  | .jbool true, _ => "true"
  | .jbool false, _ => "false"
  | .jnum n, _ => intToDec n
  | .jstr s, _ => jsonQuote s
  | .jarr [], _ => "[]"
  | .jarr (e :: es), ind =>
    "[\n" ++ joinSep ",\n" (dumpsItems (e :: es) (ind + 2)) ++ "\n" ++
      spaces ind ++ "]"
  | .jobj [], _ => "\x7b\x7d"
  | .jobj (f :: fs), ind =>
    "\x7b\n" ++ joinSep ",\n" (dumpsFields (f :: fs) (ind + 2)) ++ "\n" ++
      spaces ind ++ "\x7d"

/-- Rendered array items, each indented one level deeper. -/
def dumpsItems : List Json → Nat → List String
  | [], _ => []
  | e :: es, ind => (spaces ind ++ dumpsVal e ind) :: dumpsItems es ind

/-- Rendered object entries, each indented one level deeper. -/
def dumpsFields : List (String × Json) → Nat → List String
  | [], _ => []
  | (k, v) :: fs, ind =>
    (spaces ind ++ jsonQuote k ++ ": " ++ dumpsVal v ind) :: dumpsFields fs ind

end

/-- `json.dumps(v, indent=2)`. -/
def dumps (v : Json) : String := dumpsVal v 0

/-! ### Parsing: `json.loads` -/

/-- JSON inter-token whitespace. -/
def skipWsL (cs : List Char) : List Char :=
  cs.dropWhile (fun c => c = ' ' ∨ c = '\t' ∨ c = '\n' ∨ c = '\r')

/-- Hex digit value. -/
def hexVal (c : Char) : Option Nat :=
  if '0' ≤ c ∧ c ≤ '9' then some (c.toNat - 48)
  else if 'a' ≤ c ∧ c ≤ 'f' then some (c.toNat - 87)
  else if 'A' ≤ c ∧ c ≤ 'F' then some (c.toNat - 55)
  else none

/-- Single-character escapes in JSON strings. -/
def escChar (c : Char) : Option Char :=
  if c = '"' then some '"'
  else if c = '\\' then some '\\'
  else if c = '/' then some '/'
  else if c = 'b' then some '\x08'
  else if c = 'f' then some '\x0c'
  else if c = 'n' then some '\n'
  else if c = 'r' then some '\r'
  else if c = 't' then some '\t'
  else none

/-- Body of a JSON string after the opening quote: the decoded characters
and the remaining input. -/
def parseStrRest : List Char → Except String (List Char × List Char)
  | [] => .error "Unterminated string"
  | '"' :: rest => .ok ([], rest)
  | '\\' :: 'u' :: h1 :: h2 :: h3 :: h4 :: rest =>
    match hexVal h1, hexVal h2, hexVal h3, hexVal h4 with
    | some a, some b, some c, some d =>
      match parseStrRest rest with
      | .ok (content, r) =>
        .ok (Char.ofNat (a * 4096 + b * 256 + c * 16 + d) :: content, r)
      | .error e => .error e
    | _, _, _, _ => .error "Invalid \\uXXXX escape"
  | '\\' :: e :: rest =>
    match escChar e with
    | some c =>
      match parseStrRest rest with
      | .ok (content, r) => .ok (c :: content, r)
      | .error err => .error err
    | none => .error "Invalid \\escape"
  | c :: rest =>
    if c.toNat < 32 then .error "Invalid control character"
    else
      match parseStrRest rest with
      | .ok (content, r) => .ok (c :: content, r)
      | .error err => .error err

/-- An integer literal (floats and exponents are rejected; none occur in
the data this program handles). -/
def parseNum (cs : List Char) : Except String (Json × List Char) :=
  let (neg, cs') := match cs with
    | '-' :: r => (true, r)
    | _ => (false, cs)
  let ds := cs'.takeWhile isDigitCh
  let rest := cs'.dropWhile isDigitCh
  if ds.isEmpty then .error "Expecting value"
  else if 1 < ds.length ∧ ds.headI = '0' then .error "Leading zero"
  else
    match rest with
    | '.' :: _ => .error "Float not modelled"
    | 'e' :: _ => .error "Float not modelled"
    | 'E' :: _ => .error "Float not modelled"
    | _ =>
      let n : Int := Int.ofNat (digitsToNat ds)
      .ok (.jnum (if neg then -n else n), rest)

mutual

/-- One JSON value, fuel-recursive. -/
def parseVal : Nat → List Char → Except String (Json × List Char)
  | 0, _ => .error "Out of fuel"
  | fuel + 1, cs =>
    match skipWsL cs with
    | '\x7b' :: rest =>
      match parseObjRest fuel (skipWsL rest) [] with
      | .ok (fields, r) => .ok (.jobj fields, r)
      | .error e => .error e
    | '[' :: rest =>
      match parseArrRest fuel (skipWsL rest) with
      | .ok (vs, r) => .ok (.jarr vs, r)
      | .error e => .error e
    | '"' :: rest =>
      match parseStrRest rest with
      | .ok (content, r) => .ok (.jstr (String.mk content), r)
      | .error e => .error e
    | 't' :: 'r' :: 'u' :: 'e' :: rest => .ok (.jbool true, rest)
    | 'f' :: 'a' :: 'l' :: 's' :: 'e' :: rest => .ok (.jbool false, rest)
    | 'n' :: 'u' :: 'l' :: 'l' :: rest => .ok (.jnull, rest)
    | c :: rest =>
      if c = '-' ∨ isDigitCh c then parseNum (c :: rest)
      else .error "Expecting value"
    | [] => .error "Expecting value"

/-- Object members after `{` (with duplicate keys resolved last-wins, as a
Python dict does). -/
def parseObjRest (fuel : Nat) (cs : List Char) (acc : List (String × Json)) :
    Except String (List (String × Json) × List Char) :=
  match fuel with
  | 0 => .error "Out of fuel"
  | fuel + 1 =>
    match cs with
    | '\x7d' :: rest => .ok (acc, rest)
    | '"' :: rest =>
      match parseStrRest rest with
      | .error e => .error e
      | .ok (key, r1) =>
        match skipWsL r1 with
        | ':' :: r2 =>
          match parseVal fuel r2 with
          | .error e => .error e
          | .ok (v, r3) =>
            let acc' := pySetItem acc (String.mk key) v
            match skipWsL r3 with
            | ',' :: r4 =>
              match skipWsL r4 with
              | '"' :: r5 => parseObjRest fuel ('"' :: r5) acc'
              | _ => .error "Expecting property name"
            | '\x7d' :: r4 => .ok (acc', r4)
            | _ => .error "Expecting delimiter"
        | _ => .error "Expecting colon"
    | _ => .error "Expecting property name"

/-- Array items after `[`. -/
def parseArrRest (fuel : Nat) (cs : List Char) :
    Except String (List Json × List Char) :=
  match fuel with
  | 0 => .error "Out of fuel"
  | fuel + 1 =>
    match cs with
    | ']' :: rest => .ok ([], rest)
    | _ =>
      match parseVal fuel cs with
      | .error e => .error e
      | .ok (v, r1) =>
        match skipWsL r1 with
        | ',' :: r2 =>
          match parseArrRest fuel (skipWsL r2) with
          | .ok (vs, r3) =>
            match vs, skipWsL r2 with
            | _, ']' :: _ => .error "Trailing comma"
            | _, _ => .ok (v :: vs, r3)
          | .error e => .error e
        | ']' :: r2 => .ok ([v], r2)
        | _ => .error "Expecting delimiter"

end

/-- `json.loads(s)`. -/
def parseJson (s : String) : Except String Json :=
  match parseVal (4 * s.data.length + 64) s.data with
  | .ok (v, rest) =>
    if (skipWsL rest).isEmpty then .ok v else .error "Extra data"
  | .error e => .error e

/-! ## `wib_time`: ISO-8601 UTC timestamp to UTC+7 display string -/

/-- Gregorian leap year. -/
def isLeapYear (y : Nat) : Bool := y % 4 == 0 && (y % 100 != 0 || y % 400 == 0)

/-- Days in a month. -/
def daysInMonth (y m : Nat) : Nat :=
  if m = 2 then (if isLeapYear y then 29 else 28)
  else if m = 4 ∨ m = 6 ∨ m = 9 ∨ m = 11 then 30
  else 31

/-- Two decimal digits. -/
def digit2 (a b : Char) : Option Nat :=
  if isDigitCh a ∧ isDigitCh b then some ((a.toNat - 48) * 10 + (b.toNat - 48))
  else none

/-- Four decimal digits. -/
def digit4 (a b c d : Char) : Option Nat :=
  match digit2 a b, digit2 c d with
  | some hi, some lo => some (hi * 100 + lo)
  | _, _ => none

/-- Zero-padded two-digit rendering (`strftime` `%H` etc.). -/
def pad2 (n : Nat) : String := if n < 10 then "0" ++ natToDec n else natToDec n

/-- Zero-padded four-digit rendering (`strftime` `%Y`). -/
def pad4 (n : Nat) : String :=
  if n < 10 then "000" ++ natToDec n
  else if n < 100 then "00" ++ natToDec n
  else if n < 1000 then "0" ++ natToDec n
  else natToDec n

/-- `iso_str.replace("Z", "+00:00")` (replaces every occurrence). -/
def replaceZChars (cs : List Char) : List Char :=
  (cs.map (fun c => if c = 'Z' then "+00:00".data else [c])).flatten

/-- What may follow `...THH:MM:SS` in the timestamps handled here: nothing,
a `+00:00` offset, or a 1-6 digit fraction then an optional `+00:00`.
(`datetime.fromisoformat` accepts further forms — other fixed offsets,
microsecond variants — that this program's API data never produces.) -/
def isoTailOk (cs : List Char) : Bool :=
  match cs with
  | [] => true
  | '+' :: '0' :: '0' :: ':' :: '0' :: '0' :: [] => true
  | '.' :: rest =>
    let fs := rest.takeWhile isDigitCh
    let r2 := rest.dropWhile isDigitCh
    decide (1 ≤ fs.length ∧ fs.length ≤ 6) &&
      (r2.isEmpty || r2 == ('+' :: '0' :: '0' :: ':' :: '0' :: '0' :: []))
  | _ => false

/-- `wib_time`: parse the ISO-8601 UTC string (after the `Z` replacement),
add 7 hours, and format `%Y-%m-%d %H:%M:%S WIB`. `none` models the
`ValueError` that `datetime.fromisoformat` raises on malformed input. -/
def wib_time (iso : String) : Option String :=
  match replaceZChars iso.data with
  | y1 :: y2 :: y3 :: y4 :: '-' :: m1 :: m2 :: '-' :: d1 :: d2 :: sep ::
      h1 :: h2 :: ':' :: n1 :: n2 :: ':' :: s1 :: s2 :: rest =>
    if (sep = 'T' ∨ sep = ' ') ∧ isoTailOk rest then
      match digit4 y1 y2 y3 y4, digit2 m1 m2, digit2 d1 d2,
          digit2 h1 h2, digit2 n1 n2, digit2 s1 s2 with
      | some y, some mo, some d, some h, some mi, some s =>
        if 1 ≤ mo ∧ mo ≤ 12 ∧ 1 ≤ d ∧ d ≤ daysInMonth y mo ∧
            h ≤ 23 ∧ mi ≤ 59 ∧ s ≤ 59 then
          let h7 := h + 7
          let ymd :=
            if h7 ≤ 23 then (y, mo, d, h7)
            else if d + 1 ≤ daysInMonth y mo then (y, mo, d + 1, h7 - 24)
            else if mo = 12 then (y + 1, 1, 1, h7 - 24)
            else (y, mo + 1, 1, h7 - 24)
          some (pad4 ymd.1 ++ "-" ++ pad2 ymd.2.1 ++ "-" ++ pad2 ymd.2.2.1 ++
            " " ++ pad2 ymd.2.2.2 ++ ":" ++ pad2 mi ++ ":" ++ pad2 s ++ " WIB")
        else none
      | _, _, _, _, _, _ => none
    else none
  | _ => none

/-! ## Module constants and the summarizer -/

/-- `BASE = "https://api.x.com/2"`. -/
def BASE : String := "https://api.x.com/2"

/-- `STATE_FILE = Path("state.json")`. -/
def STATE_FILE : String := "state.json"

/-- Default for the `HANDLE` environment variable. -/
def DEFAULT_HANDLE : String := "Thekokocrypto"

/-- The preview built at lines 70-72 of the source: strip, collapse
newlines to spaces, then truncate at 120 characters with an ellipsis. -/
def previewOf (raw : String) : String :=
  let text := String.mk (replaceNlChars (pyStripChars raw.data))
  if 120 < strLen text then takeChars 120 text ++ "…" else text

/-- The id of a tweet object, when present as a string. -/
def idStrOf (t : Json) : Option String :=
  match t with
  | .jobj fs =>
    match dictGet fs "id" with
    | some (.jstr s) => some s
    | _ => none
  | _ => none

/-- `summarize(t)`: one two-line entry. `none` models the uncaught
exceptions the source raises when `created_at` is missing or malformed,
when `text` is present but not a string, or when `id` is missing. -/
def summarize (handle : String) (t : Json) : Option String :=
  match t with
  | .jobj fs =>
    match dictGet fs "created_at" with
    | some (.jstr createdUtc) =>
      match wib_time createdUtc with
      | some w =>
        let textRaw : Option String :=
          match dictGet fs "text" with
          | some (.jstr s) => some s
          | none => some ""
          | some _ => none
        match textRaw with
        | some raw =>
          match dictGet fs "id" with
          | some (.jstr i) =>
            some ("- " ++ w ++ " | " ++ previewOf raw ++ "\n  https://x.com/" ++
              handle ++ "/status/" ++ i)
          | _ => none
        | none => none
      | none => none
    | _ => none
  | _ => none

/-! ## The watermark store -/

/-- `load_state()`: missing file means the empty mapping; an existing file
is fed to `json.loads`, whose failure (`Except.error`) the source does NOT
catch. -/
def load_state (stateFile : Option String) : Except String Json :=
  match stateFile with
  | none => .ok (.jobj [])
  | some content => parseJson content

/-- Observable file-system operations. -/
inductive FsOp where
  | write (path content : String)
  | rename (src dst : String)
  deriving DecidableEq

/-- Whether an operation is a rename. -/
def FsOp.isRename : FsOp → Bool
  | .write _ _ => false
  | .rename _ _ => true

/-- `save_state(state)`: a single direct `write_text` of
`json.dumps(state, indent=2)` to `state.json` — no temporary file, no
rename. -/
def save_state_ops (state : List (String × Json)) : List FsOp :=
  [FsOp.write STATE_FILE (dumps (.jobj state))]

/-- `Path.write_text` opens with truncation and writes sequentially: a
crash after `k` characters leaves exactly the first `k` characters of the
new serialization in the file (the old content is already gone). -/
def crashedSaveContent (state : List (String × Json)) (k : Nat) : String :=
  takeChars k (dumps (.jobj state))

/-- Line 79, `state.get(handle_key, {}).get("since_id")`: the nested
lookup; `Except.error` models the uncaught `AttributeError` when the
handle's entry exists but is not an object. -/
def sinceIdOf (state : List (String × Json)) (hk : String) :
    Except String (Option Json) :=
  match dictGet state hk with
  | none => .ok none
  | some (.jobj r) => .ok (dictGet r "since_id")
  | some _ => .error "AttributeError"

/-- Lines 97-99: `state.setdefault(handle_key, {})["since_id"] = newest_id`.
`Except.error` models the uncaught `TypeError` when the existing entry is
not an object. -/
def pySetSince (state : List (String × Json)) (hk newestId : String) :
    Except String (List (String × Json)) :=
  match dictGet state hk with
  | some (.jobj r) =>
    .ok (pySetItem state hk (.jobj (pySetItem r "since_id" (.jstr newestId))))
  | some _ => .error "TypeError"
  | none => .ok (state ++ [(hk, .jobj [("since_id", .jstr newestId)])])

/-! ## The incremental fetcher -/

/-- An HTTP response as the program sees it: a status code and a JSON body
(`r.json()`; non-JSON bodies never occur in the claims). -/
structure HttpResp where
  status : Nat
  body : Json

/-- The sort key of line 65, `key=lambda t: t["id"]`, as code points.
`fetch_new_tweets` only sorts lists all of whose members carry string ids
(matching the exception the Python sort raises otherwise), so the `""`
default is never consulted. -/
def tweetKey (t : Json) : List Char := ((idStrOf t).getD "").data

/-- The ordering the Python stable sort realises on tweets. -/
def tweetLe (a b : Json) : Prop := lexLeb (tweetKey a) (tweetKey b) = true

instance : DecidableRel tweetLe :=
  fun _ _ => inferInstanceAs (Decidable (_ = true))

instance : IsTotal Json tweetLe :=
  ⟨fun a b => lexLeb_total (tweetKey a) (tweetKey b)⟩

instance : IsTrans Json tweetLe := ⟨fun _ _ _ => lexLeb_trans⟩

/-- Line 65: `tweets.sort(key=lambda t: t["id"])`. Any stable sort agrees
with Python's on a total preorder; insertion sort is stable. -/
def sortTweets (ts : List Json) : List Json := ts.insertionSort tweetLe

/-- The failure modes of `fetch_new_tweets`, by raise site: missing token
(line 28), 403 (line 60), `raise_for_status` (line 61), and the uncaught
shape errors of lines 63-65 (non-object body, non-list `data`, members
without string ids). All are caught by `main`'s `except Exception`. -/
inductive FetchErr where
  | auth (msg : String)
  | forbidden (msg : String)
  | remote (status : Nat)
  | shape (msg : String)
  deriving DecidableEq

/-- `str(e)` for the diagnostic line (for `HTTPError` the real text also
names the reason and URL, which are not modelled). -/
def FetchErr.text : FetchErr → String
  | .auth m => m
  | .forbidden m => m
  | .remote status => natToDec status ++ " HTTP error"
  | .shape m => m

/-- `fetch_new_tweets(user_id, since_id)` over an injected response:
returns the URLs requested (empty when `headers()` raises before the
request) and the sorted list of new tweets or the error raised. The
`since_id` request parameter only shapes the outgoing query, never the
handling of the injected response, so it does not appear. -/
def fetch_new_tweets (user_id : String) (bearer : Option String)
    (resp : HttpResp) : List String × Except FetchErr (List Json) :=
  match bearer with
  | none => ([], .error (.auth "Missing X_BEARER_TOKEN in environment."))
  | some _ =>
    ([BASE ++ "/users/" ++ user_id ++ "/tweets"],
      if resp.status = 403 then
        .error (.forbidden
          "403 Forbidden. Your API tier might not allow this endpoint or parameters.")
      else if 400 ≤ resp.status then .error (.remote resp.status)
      else
        match resp.body with
        | .jobj fs =>
          match dictGet fs "data" with
          | none => .ok []
          | some (.jarr ts) =>
            if ts.all (fun t => (idStrOf t).isSome) then .ok (sortTweets ts)
            else .error (.shape "sort key error")
          | some _ => .error (.shape "AttributeError: sort")
        | _ => .error (.shape "AttributeError: get"))

/-- `get_user_id(username)` over an injected response: the URLs requested
and `data["data"]["id"]` or the error raised (missing token, HTTP error
from `raise_for_status`, or a body without the nested id). -/
def get_user_id (username : String) (bearer : Option String)
    (resp : HttpResp) : List String × Except String Json :=
  match bearer with
  | none => ([], .error "Missing X_BEARER_TOKEN in environment.")
  | some _ =>
    ([BASE ++ "/users/by/username/" ++ username],
      if 400 ≤ resp.status then .error (natToDec resp.status ++ " HTTP error")
      else
        match resp.body with
        | .jobj fs =>
          match dictGet fs "data" with
          | some (.jobj ds) =>
            match dictGet ds "id" with
            | some v => .ok v
            | none => .error "KeyError: id"
          | some _ => .error "TypeError"
          | none => .error "KeyError: data"
        | _ => .error "TypeError")

/-- f-string rendering of the resolved user id (a string or a number in
any response this API returns). -/
def pyFormatScalar : Json → String
  | .jstr s => s
  | .jnum n => intToDec n
  | .jbool true => "True"
  | .jbool false => "False"
  | .jnull => "None"
  | .jarr _ => "<list>"
  | .jobj _ => "<dict>"

/-! ## The whole run -/

/-- Everything a run reads from the outside world. `nowStamp` stands for
`datetime.utcnow().strftime('%Y%m%dT%H%M%SZ')` (real time is an input,
not modelled). -/
structure RunInput where
  handleEnv : Option String
  bearer : Option String
  stateFile : Option String
  resolveResp : HttpResp
  fetchResp : HttpResp
  nowStamp : String

/-- The observable behaviour of one run. `exitCode` is the process exit
status (an uncaught exception makes the interpreter exit with 1);
`uncaught` records that the run died on an uncaught exception; `stdout`
lists the arguments of the `print` calls in order. -/
structure Effects where
  exitCode : Nat
  uncaught : Bool
  stdout : List String
  netCalls : List String
  fsReads : List String
  fsWrites : List (String × String)
  deriving DecidableEq

/-- `HANDLE = os.getenv("HANDLE", "Thekokocrypto")`. -/
def handleOf (inp : RunInput) : String := inp.handleEnv.getD DEFAULT_HANDLE

/-- `load_state` reads the state file exactly when it exists. -/
def readsOf (inp : RunInput) : List String :=
  match inp.stateFile with
  | some _ => [STATE_FILE]
  | none => []

/-- `print(summarize(t))` for each tweet: the lines printed before any
summarizing exception, and whether all succeeded. -/
def summarizeAll (handle : String) : List Json → List String × Bool
  | [] => ([], true)
  | t :: ts =>
    match summarize handle t with
    | none => ([], false)
    | some s =>
      let r := summarizeAll handle ts
      (s :: r.1, r.2)

/-- The id of the last (post-sort newest) tweet, line 98. -/
def newestIdOf (ts : List Json) : String :=
  match ts.getLast? with
  | some t => (idStrOf t).getD ""
  | none => ""

/-- `main()`: the full run pipeline of lines 76-114 over injected inputs.
Each `match` arm mirrors one exit path of the source. -/
def mainRun (inp : RunInput) : Effects :=
  let handle := handleOf inp
  let reads := readsOf inp
  match load_state inp.stateFile with
  | .error _ => ⟨1, true, [], [], reads, []⟩
  | .ok stateJson =>
    match stateJson with
    | .jobj state =>
      match sinceIdOf state (pyLower handle) with
      | .error _ => ⟨1, true, [], [], reads, []⟩
      | .ok _lastId =>
        let resolveStep := get_user_id handle inp.bearer inp.resolveResp
        match resolveStep.2 with
        | .error e =>
          ⟨1, false,
            ["[ERROR] Failed to resolve user id for @" ++ handle ++ ": " ++ e],
            resolveStep.1, reads, []⟩
        | .ok uidJson =>
          let fetchStep :=
            fetch_new_tweets (pyFormatScalar uidJson) inp.bearer inp.fetchResp
          let calls := resolveStep.1 ++ fetchStep.1
          match fetchStep.2 with
          | .error fe =>
            ⟨1, false, ["[ERROR] Failed to fetch tweets: " ++ fe.text],
              calls, reads, []⟩
          | .ok [] => ⟨0, false, ["No new posts since last check."], calls, reads, []⟩
          | .ok (t0 :: trest) =>
            let newTweets := t0 :: trest
            let newestId := newestIdOf newTweets
            match pySetSince state (pyLower handle) newestId with
            | .error _ => ⟨1, true, [], calls, reads, []⟩
            | .ok state' =>
              let stateWrite := (STATE_FILE, dumps (.jobj state'))
              let header :=
                "@" ++ handle ++ " — " ++ natToDec newTweets.length ++ " new post(s):"
              let summaries := summarizeAll handle newTweets
              if summaries.2 then
                let reportName :=
                  "report_" ++ handle ++ "_" ++ inp.nowStamp ++ ".md"
                let reportContent := "# Updates for @" ++ handle ++ "\n\n" ++
                  String.join (summaries.1.map (· ++ "\n"))
                ⟨0, false,
                  header :: summaries.1 ++ ["\nSaved report: " ++ reportName],
                  calls, reads, [stateWrite, (reportName, reportContent)]⟩
              else
                ⟨1, true, header :: summaries.1, calls, reads, [stateWrite]⟩
    | _ => ⟨1, true, [], [], reads, []⟩

/-! ## Helper lemmas -/

theorem lexLeb_refl (a : List Char) : lexLeb a a = true := by
  simp [lexLeb, lexLtb_irrefl]

theorem tweetLe_refl (t : Json) : tweetLe t t := lexLeb_refl _

/-- In a `tweetLe`-sorted list every member is below the last element. -/
theorem rel_getLast?_of_sorted :
    ∀ {l : List Json}, l.Sorted tweetLe → ∀ {last : Json},
      l.getLast? = some last → ∀ t ∈ l, tweetLe t last := by
  intro l
  induction l with
  | nil => intro _ last h; cases h
  | cons a rest ih =>
    intro hs last hl t ht
    cases rest with
    | nil =>
      simp only [List.getLast?_singleton, Option.some.injEq] at hl
      rcases List.mem_cons.mp ht with rfl | h0
      · exact hl ▸ tweetLe_refl t
      · cases h0
    | cons b bs =>
      rw [List.getLast?_cons_cons] at hl
      have hmem : last ∈ b :: bs := by
        rcases List.mem_getLast?_eq_getLast (by simpa using hl) with ⟨hne, h2⟩
        exact h2 ▸ List.getLast_mem hne
      rcases List.mem_cons.mp ht with rfl | h0
      · exact (List.sorted_cons.mp hs).1 last hmem
      · exact ih (List.sorted_cons.mp hs).2 hl t h0

theorem sortTweets_perm (ts : List Json) : List.Perm (sortTweets ts) ts :=
  List.perm_insertionSort tweetLe ts

theorem sortTweets_sorted (ts : List Json) : (sortTweets ts).Sorted tweetLe :=
  List.sorted_insertionSort tweetLe ts

/-- `dictGet` after `pySetItem` at the same key. -/
theorem dictGet_pySetItem_eq (fs : List (String × Json)) (k : String) (v : Json) :
    dictGet (pySetItem fs k v) k = some v := by
  induction fs with
  | nil => simp [pySetItem, dictGet]
  | cons p rest ih =>
    obtain ⟨k', v'⟩ := p
    by_cases h : k' = k
    · subst h
      simp [pySetItem, dictGet]
    · simp [pySetItem, dictGet, h, ih]

/-- `dictGet` after `pySetItem` at a different key. -/
theorem dictGet_pySetItem_ne (fs : List (String × Json)) (k q : String) (v : Json)
    (h : q ≠ k) : dictGet (pySetItem fs k v) q = dictGet fs q := by
  induction fs with
  | nil =>
    have hne : ¬ k = q := fun hh => h hh.symm
    simp [pySetItem, dictGet, hne]
  | cons p rest ih =>
    obtain ⟨k', v'⟩ := p
    by_cases hk : k' = k
    · subst hk
      have hne : ¬ k' = q := fun hh => h hh.symm
      simp [pySetItem, dictGet, hne]
    · by_cases hq : k' = q
      · subst hq
        simp [pySetItem, dictGet, hk]
      · simp [pySetItem, dictGet, hk, hq, ih]

/-- `dictGet` over an appended tail: the front wins. -/
theorem dictGet_append (xs ys : List (String × Json)) (k : String) :
    dictGet (xs ++ ys) k =
      match dictGet xs k with
      | some v => some v
      | none => dictGet ys k := by
  induction xs with
  | nil => simp [dictGet]
  | cons p rest ih =>
    obtain ⟨k', v'⟩ := p
    by_cases h : k' = k
    · simp [dictGet, h]
    · simp [dictGet, h, ih]

/-- Shared backbone for the two no-new-posts claims: when every stage up
to the fetch succeeds and the fetch yields no tweets, the run prints the
no-new-posts line, touches no file, and exits 0. -/
theorem mainRun_no_new (inp : RunInput) (state : List (String × Json))
    (uidJson : Json) (v : Option Json)
    (hload : load_state inp.stateFile = .ok (.jobj state))
    (hsince : sinceIdOf state (pyLower (handleOf inp)) = .ok v)
    (hres : (get_user_id (handleOf inp) inp.bearer inp.resolveResp).2 = .ok uidJson)
    (hfetch : (fetch_new_tweets (pyFormatScalar uidJson) inp.bearer
      inp.fetchResp).2 = .ok []) :
    mainRun inp = ⟨0, false, ["No new posts since last check."],
      (get_user_id (handleOf inp) inp.bearer inp.resolveResp).1 ++
        (fetch_new_tweets (pyFormatScalar uidJson) inp.bearer inp.fetchResp).1,
      readsOf inp, []⟩ := by
  simp only [mainRun, hload, hsince, hres, hfetch]

/-! ## Fixtures (concrete inputs used by counterexamples and witnesses) -/

/-- A minimal tweet object carrying only an id. -/
def idOnlyTweet (i : String) : Json := .jobj [("id", .jstr i)]

/-- A full tweet object with id, text and timestamp. -/
def sampleTweet (i : String) : Json :=
  .jobj [("id", .jstr i), ("text", .jstr ("post " ++ i)),
    ("created_at", .jstr "2024-01-15T10:20:30.000Z")]

/-- A resolve response carrying user id `111`. -/
def okResolveResp : HttpResp := ⟨200, .jobj [("data", .jobj [("id", .jstr "111")])]⟩

/-- A fetch response with an empty `data` array. -/
def emptyFetchResp : HttpResp := ⟨200, .jobj [("data", .jarr [])]⟩

/-- The state before the save of the atomicity scenario. -/
def oldSavedState : List (String × Json) := [("alice", .jobj [("since_id", .jstr "10")])]

/-- The state being saved in the atomicity scenario. -/
def newSavedState : List (String × Json) := [("alice", .jobj [("since_id", .jstr "12")])]

/-- **C3, counterexample.** `save_state` is not atomic from the caller's
perspective: a crash after one character of the overwrite leaves the file
holding `"{"`, which a subsequent `load` can read as neither the previous
state nor the new one — it fails to parse, while both the intact old and
the intact new serializations load fine. -/
theorem C3_counterexample :
    crashedSaveContent newSavedState 1 = "\x7b" ∧
    (load_state (some (crashedSaveContent newSavedState 1))).isOk = false ∧
    load_state (some (dumps (.jobj oldSavedState))) = .ok (.jobj oldSavedState) ∧
    load_state (some (dumps (.jobj newSavedState))) = .ok (.jobj newSavedState) :=
  ⟨rfl, rfl, rfl, rfl⟩

/-- **C3 (amended).** `save_state` overwrites the state file with a single
direct truncating write of the serialization — no temporary location, no
rename, so the write is not atomic: in the scenario above, every crash
point strictly inside the write leaves a proper prefix that a subsequent
load fails to read as a valid mapping (so a partial file is never
*observed as valid*, but the previous state is destroyed and the next run
dies instead of proceeding). -/
theorem C3_save_single_direct_write (state : List (String × Json)) :
    save_state_ops state = [FsOp.write STATE_FILE (dumps (.jobj state))] ∧
    (save_state_ops state).all (fun op => !op.isRename) = true ∧
    ∀ k, k < strLen (dumps (.jobj newSavedState)) →
      (load_state (some (crashedSaveContent newSavedState k))).isOk = false :=
  ⟨rfl, rfl, by decide⟩

/-- **C3, witness.** The amended statement applied at crash point 1. -/
theorem C3_save_single_direct_write_witness :
    (load_state (some (crashedSaveContent newSavedState 1))).isOk = false :=
  (C3_save_single_direct_write []).2.2 1 (by decide)

/-- A run over a corrupt state file (and otherwise fine inputs: resolve
succeeds, fetch yields no posts). -/
def corruptStateRun : RunInput :=
  ⟨some "alice", some "tok", some "\x7b oops", okResolveResp, emptyFetchResp,
    "20240115T102031Z"⟩

/-- The same run with no state file at all (a true first run). -/
def freshStateRun : RunInput := { corruptStateRun with stateFile := none }

/-- **C4, counterexample.** With a corrupt state file the run does NOT
behave like a first run: the first run exits 0 on the no-new-posts path,
while the corrupt-state run dies on the uncaught `json.loads` exception
with exit status 1, before any network call. -/
theorem C4_counterexample :
    mainRun corruptStateRun = ⟨1, true, [], [], [STATE_FILE], []⟩ ∧
    mainRun freshStateRun = ⟨0, false, ["No new posts since last check."],
      [BASE ++ "/users/by/username/alice", BASE ++ "/users/111/tweets"],
      [], []⟩ ∧
    (mainRun corruptStateRun).exitCode ≠ 0 :=
  ⟨rfl, rfl, by decide⟩

/-- **C4 (amended).** Only a *missing* state file is treated as the empty
mapping; when the file exists but does not parse, the `json.loads` error
is not caught: the run terminates on an uncaught exception (interpreter
exit status 1) having read the state file, printed nothing, called no
network endpoint and written nothing. -/
theorem C4_load_state_error_propagates :
    load_state none = .ok (.jobj []) ∧
    ∀ (inp : RunInput) (content e : String), inp.stateFile = some content →
      parseJson content = .error e →
      mainRun inp = ⟨1, true, [], [], [STATE_FILE], []⟩ := by
  refine ⟨rfl, ?_⟩
  intro inp content e hsf hparse
  simp only [mainRun, load_state, readsOf, hsf, hparse]

/-- **C4, witness.** The amended statement applied to the corrupt-state
fixture. -/
theorem C4_load_state_error_propagates_witness :
    mainRun corruptStateRun = ⟨1, true, [], [], [STATE_FILE], []⟩ :=
  C4_load_state_error_propagates.2 corruptStateRun "\x7b oops"
    "Expecting property name" rfl rfl

/-- The normalization of line 70: strip, then newlines to spaces. -/
def normalizedText (raw : String) : String :=
  String.mk (replaceNlChars (pyStripChars raw.data))

/-- **C5, counterexample.** The preview is NOT the text verbatim for short
posts: `" hi "` has length 4 ≤ 120 and no newline, yet the rendered
preview is the stripped `"hi"`. -/
theorem C5_counterexample :
    strLen " hi " ≤ 120 ∧ previewOf " hi " = "hi" ∧ (" hi " : String) ≠ "hi" :=
  ⟨by decide, rfl, by decide⟩

/-- **C5 (amended).** The truncation law holds for the *normalized* text
(leading/trailing whitespace stripped, then newlines replaced by spaces):
at length ≤ 120 the preview is the normalized text verbatim, above 120 it
is its first 120 characters plus the ellipsis; the normalized text never
contains a newline. -/
theorem C5_truncation_after_strip (raw : String) :
    (strLen (normalizedText raw) ≤ 120 → previewOf raw = normalizedText raw) ∧
    (120 < strLen (normalizedText raw) →
      previewOf raw = takeChars 120 (normalizedText raw) ++ "…") ∧
    (normalizedText raw).data.all (fun c => c ≠ '\n') = true := by
  refine ⟨?_, ?_, ?_⟩
  · intro h
    unfold previewOf normalizedText at *
    rw [if_neg (Nat.not_lt.mpr h)]
  · intro h
    unfold previewOf normalizedText at *
    rw [if_pos h]
  · unfold normalizedText replaceNlChars
    rw [List.all_eq_true]
    intro c hc
    obtain ⟨d, _, hd⟩ := List.mem_map.mp hc
    subst hd
    by_cases h : d = '\n'
    · simp [h]
    · simp [h]

/-- A 130-character text, for the truncating branch. -/
def longSample : String := String.mk (List.replicate 130 'a')

/-- **C5, witness.** Both branches of the amended law at concrete texts. -/
theorem C5_truncation_after_strip_witness :
    previewOf " hi " = normalizedText " hi " ∧
    previewOf longSample = takeChars 120 (normalizedText longSample) ++ "…" :=
  ⟨(C5_truncation_after_strip " hi ").1 (by decide),
   (C5_truncation_after_strip longSample).2.1 (by decide)⟩

/-- A run whose fetch returns an empty `data` array, over an existing
(empty-object) state file. -/
def emptyFetchRun : RunInput :=
  ⟨some "alice", some "tok", some "\x7b\x7d", okResolveResp, emptyFetchResp,
    "20240115T102031Z"⟩

/-- **C6.** When the fetch returns an empty list the run prints the
no-new-posts message, writes no file at all (neither state nor report, so
the watermark file is byte-for-byte unchanged) and exits with status 0. -/
theorem C6_empty_fetch_noop (inp : RunInput) (state : List (String × Json))
    (uidJson : Json) (v : Option Json)
    (hload : load_state inp.stateFile = .ok (.jobj state))
    (hsince : sinceIdOf state (pyLower (handleOf inp)) = .ok v)
    (hres : (get_user_id (handleOf inp) inp.bearer inp.resolveResp).2 = .ok uidJson)
    (hfetch : (fetch_new_tweets (pyFormatScalar uidJson) inp.bearer
      inp.fetchResp).2 = .ok []) :
    mainRun inp = ⟨0, false, ["No new posts since last check."],
      (get_user_id (handleOf inp) inp.bearer inp.resolveResp).1 ++
        (fetch_new_tweets (pyFormatScalar uidJson) inp.bearer inp.fetchResp).1,
      readsOf inp, []⟩ :=
  mainRun_no_new inp state uidJson v hload hsince hres hfetch

/-- **C6, witness.** The empty-fetch run evaluated on concrete inputs. -/
theorem C6_empty_fetch_noop_witness :
    mainRun emptyFetchRun = ⟨0, false, ["No new posts since last check."],
      [BASE ++ "/users/by/username/alice", BASE ++ "/users/111/tweets"],
      [STATE_FILE], []⟩ :=
  C6_empty_fetch_noop emptyFetchRun [] (.jstr "111") none rfl rfl rfl rfl

/-- A run with no bearer token in the environment, over an existing state
file. -/
def missingTokenRun : RunInput :=
  ⟨some "alice", none, some "\x7b\x7d", okResolveResp, emptyFetchResp,
    "20240115T102031Z"⟩

/-- **C7, counterexample.** With the credential absent the run does read
the state file *before* the missing token is noticed (so the check is not
prior to all I/O), and no printed line carries a `ConfigError` tag — the
diagnostic is the resolve-phase `[ERROR]` line. Exit status is 1 and no
network call is made. -/
theorem C7_counterexample :
    (mainRun missingTokenRun).fsReads = [STATE_FILE] ∧
    (mainRun missingTokenRun).exitCode = 1 ∧
    (∀ l ∈ (mainRun missingTokenRun).stdout,
      ¬ ("ConfigError".data <:+: l.data)) ∧
    (mainRun missingTokenRun).netCalls = [] := by
  refine ⟨rfl, rfl, ?_, rfl⟩
  decide

/-- **C7 (amended).** A missing bearer token makes the run exit with
status 1 after printing the single resolve-phase diagnostic naming the
missing variable; the failure is raised by `headers()` inside the resolve
step — after the state file has been read, but before any network call
(zero network calls) — and nothing is written. -/
theorem C7_missing_token_diag (inp : RunInput) (state : List (String × Json))
    (v : Option Json)
    (hb : inp.bearer = none)
    (hload : load_state inp.stateFile = .ok (.jobj state))
    (hsince : sinceIdOf state (pyLower (handleOf inp)) = .ok v) :
    mainRun inp = ⟨1, false,
      ["[ERROR] Failed to resolve user id for @" ++ handleOf inp ++ ": " ++
        "Missing X_BEARER_TOKEN in environment."],
      [], readsOf inp, []⟩ := by
  simp only [mainRun, hload, hsince, get_user_id, hb]

/-- **C7, witness.** The amended statement on the concrete fixture. -/
theorem C7_missing_token_diag_witness :
    mainRun missingTokenRun = ⟨1, false,
      ["[ERROR] Failed to resolve user id for @alice: Missing X_BEARER_TOKEN in environment."],
      [], [STATE_FILE], []⟩ :=
  C7_missing_token_diag missingTokenRun [] none rfl rfl rfl

/-- **C8.** `fetch_new_tweets` fails with the auth error and zero network
calls when the token is absent; it fails with the forbidden error —
whose message hints at the API tier — exactly when the response status is
403; and it fails with the remote error on every other non-success
(≥ 400) status. -/
theorem C8_fetch_errors (uid bearer : String) (resp : HttpResp) :
    fetch_new_tweets uid none resp =
      ([], .error (.auth "Missing X_BEARER_TOKEN in environment.")) ∧
    ((∃ m, (fetch_new_tweets uid (some bearer) resp).2 = .error (.forbidden m) ∧
        "tier".data <:+: m.data) ↔ resp.status = 403) ∧
    (400 ≤ resp.status → resp.status ≠ 403 →
      (fetch_new_tweets uid (some bearer) resp).2 = .error (.remote resp.status)) := by
  refine ⟨rfl, ⟨?_, ?_⟩, ?_⟩
  · rintro ⟨m, hm, -⟩
    by_contra hne
    simp only [fetch_new_tweets, if_neg hne] at hm
    split at hm
    · simp at hm
    · split at hm
      · split at hm
        · simp at hm
        · split at hm
          · simp at hm
          · simp at hm
        · simp at hm
      · simp at hm
  · intro h
    refine ⟨"403 Forbidden. Your API tier might not allow this endpoint or parameters.",
      ?_, by decide⟩
    simp [fetch_new_tweets, h]
  · intro h4 hne
    simp [fetch_new_tweets, if_neg hne, if_pos h4]

/-- **C8, witness.** All three failure modes at concrete inputs. -/
theorem C8_fetch_errors_witness :
    fetch_new_tweets "111" none ⟨404, .jnull⟩ =
      ([], .error (.auth "Missing X_BEARER_TOKEN in environment.")) ∧
    (∃ m, (fetch_new_tweets "111" (some "tok") ⟨403, .jnull⟩).2 =
      .error (.forbidden m) ∧ "tier".data <:+: m.data) ∧
    (fetch_new_tweets "111" (some "tok") ⟨404, .jnull⟩).2 = .error (.remote 404) :=
  ⟨(C8_fetch_errors "111" "tok" ⟨404, .jnull⟩).1,
   (C8_fetch_errors "111" "tok" ⟨403, .jnull⟩).2.1.mpr rfl,
   (C8_fetch_errors "111" "tok" ⟨404, .jnull⟩).2.2 (by decide) (by decide)⟩

/-- **C9.** The watermark update of lines 97-100 is frame-preserving:
every other top-level key keeps its value, every other field of the
current handle's record keeps its value, and the handle's record gains
exactly `since_id = newestId` (unknown keys ride along through load and
save untouched, never rejected). -/
theorem C9_state_frame (state : List (String × Json)) (hk newestId : String)
    (state' : List (String × Json))
    (hset : pySetSince state hk newestId = .ok state') :
    (∀ k, k ≠ hk → dictGet state' k = dictGet state k) ∧
    (∀ r r' f, dictGet state hk = some (.jobj r) →
      dictGet state' hk = some (.jobj r') → f ≠ "since_id" →
      dictGet r' f = dictGet r f) ∧
    (∃ r', dictGet state' hk = some (.jobj r') ∧
      dictGet r' "since_id" = some (.jstr newestId)) := by
  unfold pySetSince at hset
  cases hg : dictGet state hk with
  | none =>
    rw [hg] at hset
    injection hset with hset
    subst hset
    refine ⟨?_, ?_, ?_⟩
    · intro k hkne
      rw [dictGet_append]
      cases dictGet state k with
      | some w => rfl
      | none =>
        have hne : ¬ hk = k := fun hh => hkne hh.symm
        simp [dictGet, hne]
    · intro r r' f hr
      exact absurd hr (by simp)
    · refine ⟨[("since_id", .jstr newestId)], ?_, by simp [dictGet]⟩
      rw [dictGet_append, hg]
      simp [dictGet]
  | some w =>
    rw [hg] at hset
    cases w with
    | jobj r0 =>
      injection hset with hset
      subst hset
      refine ⟨?_, ?_, ?_⟩
      · intro k hkne
        exact dictGet_pySetItem_ne state hk k _ hkne
      · intro r r' f hr hr' hf
        injection hr with hr
        injection hr with hr
        subst hr
        rw [dictGet_pySetItem_eq] at hr'
        injection hr' with hr'
        injection hr' with hr'
        subst hr'
        exact dictGet_pySetItem_ne r0 "since_id" f _ hf
      · exact ⟨pySetItem r0 "since_id" (.jstr newestId),
          dictGet_pySetItem_eq state hk _, dictGet_pySetItem_eq r0 "since_id" _⟩
    | jnull => cases hset
    | jbool b => cases hset
    | jnum n => cases hset
    | jstr s => cases hset
    | jarr es => cases hset

/-- State fixture with an unrelated top-level key and an extra field in
the handle's record. -/
def c9state : List (String × Json) :=
  [("bob", .jstr "frozen"),
   ("alice", .jobj [("since_id", .jstr "10"), ("note", .jstr "keep")])]

/-- `c9state` after the watermark update for `alice`. -/
def c9res : List (String × Json) :=
  [("bob", .jstr "frozen"),
   ("alice", .jobj [("since_id", .jstr "12"), ("note", .jstr "keep")])]

/-- **C9, witness.** The frame conditions on a concrete state. -/
theorem C9_state_frame_witness :
    dictGet c9res "bob" = dictGet c9state "bob" ∧
    dictGet [("since_id", Json.jstr "12"), ("note", Json.jstr "keep")] "note" =
      dictGet [("since_id", Json.jstr "10"), ("note", Json.jstr "keep")] "note" := by
  have h := C9_state_frame c9state "alice" "12" c9res rfl
  exact ⟨h.1 "bob" (by decide), h.2.1 _ _ "note" rfl rfl (by decide)⟩

/-- **C10.** A success-status fetch whose JSON object body has no `data`
key yields the empty list (`data.get("data", [])`), so the run takes the
no-new-posts path: nothing saved, no report, exit status 0. -/
theorem C10_missing_data_key (inp : RunInput) (state : List (String × Json))
    (uidJson : Json) (v : Option Json) (bt : String) (fs : List (String × Json))
    (hload : load_state inp.stateFile = .ok (.jobj state))
    (hsince : sinceIdOf state (pyLower (handleOf inp)) = .ok v)
    (hres : (get_user_id (handleOf inp) inp.bearer inp.resolveResp).2 = .ok uidJson)
    (hb : inp.bearer = some bt)
    (hstatus : inp.fetchResp.status < 400)
    (hbody : inp.fetchResp.body = .jobj fs)
    (hdata : dictGet fs "data" = none) :
    (fetch_new_tweets (pyFormatScalar uidJson) inp.bearer inp.fetchResp).2 = .ok [] ∧
    mainRun inp = ⟨0, false, ["No new posts since last check."],
      (get_user_id (handleOf inp) inp.bearer inp.resolveResp).1 ++
        (fetch_new_tweets (pyFormatScalar uidJson) inp.bearer inp.fetchResp).1,
      readsOf inp, []⟩ := by
  have h403 : ¬ inp.fetchResp.status = 403 := by omega
  have h400 : ¬ 400 ≤ inp.fetchResp.status := by omega
  have hfetch : (fetch_new_tweets (pyFormatScalar uidJson) inp.bearer
      inp.fetchResp).2 = .ok [] := by
    simp [fetch_new_tweets, hb, hbody, hdata, if_neg h403, if_neg h400]
  exact ⟨hfetch, mainRun_no_new inp state uidJson v hload hsince hres hfetch⟩

/-- A success response whose body is an object without `data`. -/
def noDataFetchResp : HttpResp :=
  ⟨200, .jobj [("meta", .jobj [("result_count", .jnum 0)])]⟩

/-- First run against the no-`data` response. -/
def noDataRun : RunInput :=
  ⟨some "alice", some "tok", none, okResolveResp, noDataFetchResp, "20240115T102031Z"⟩

/-- **C10, witness.** The no-`data` run evaluated on concrete inputs. -/
theorem C10_missing_data_key_witness :
    (fetch_new_tweets "111" (some "tok") noDataFetchResp).2 = .ok [] ∧
    mainRun noDataRun = ⟨0, false, ["No new posts since last check."],
      [BASE ++ "/users/by/username/alice", BASE ++ "/users/111/tweets"],
      [], []⟩ := by
  have h := C10_missing_data_key noDataRun [] (.jstr "111") none "tok"
    [("meta", .jobj [("result_count", .jnum 0)])] rfl rfl rfl rfl (by decide) rfl rfl
  exact ⟨h.1, h.2⟩

/-- **C1, counterexample.** With previous watermark `"5"`, the batch with
ids `"10"` and `"9"` (both numerically past the watermark) is sorted
*lexicographically*, so the run stores `"9"` — which is NOT the newest
fetched post's identifier: the id `"10"` is numerically greater. The
stored watermark still does not decrease, but the claim's "advances to
the newest fetched post's identifier" fails. -/
theorem C1_counterexample :
    newestIdOf (sortTweets [idOnlyTweet "10", idOnlyTweet "9"]) = "9" ∧
    idStrOf (idOnlyTweet "10") = some "10" ∧
    strToNat? "9" = some 9 ∧ strToNat? "10" = some 10 ∧
    (5 : Nat) < 9 ∧ (5 : Nat) < 10 ∧ (9 : Nat) < 10 :=
  ⟨rfl, rfl, rfl, rfl, by decide, by decide, by decide⟩

/-- **C1 (amended).** The stored `since_id` never decreases: the new
watermark is the id of one of the fetched posts (the lexicographically
greatest), and since every fetched post's id is numerically past the
previous watermark, the stored value strictly exceeds it. It is the
newest fetched id only when lexicographic and numeric order agree (e.g.
equal-length ids). -/
theorem C1_watermark_monotone (ts : List Json) (prevN : Nat)
    (hne : ts ≠ [])
    (hids : ∀ t ∈ ts, ∃ s n, idStrOf t = some s ∧ strToNat? s = some n ∧ prevN < n) :
    ∃ n, strToNat? (newestIdOf (sortTweets ts)) = some n ∧ prevN < n ∧
      ∀ t ∈ ts, lexLeb (tweetKey t) (newestIdOf (sortTweets ts)).data = true := by
  have hperm := sortTweets_perm ts
  have hsne : sortTweets ts ≠ [] := by
    intro h
    rw [h] at hperm
    exact hne (hperm.symm.eq_nil)
  have hlast : (sortTweets ts).getLast? = some ((sortTweets ts).getLast hsne) :=
    List.getLast?_eq_getLast_of_ne_nil hsne
  have hlmem : (sortTweets ts).getLast hsne ∈ ts :=
    hperm.mem_iff.mp (List.getLast_mem hsne)
  obtain ⟨s, n, hid, hnum, hlt⟩ := hids _ hlmem
  have hnewest : newestIdOf (sortTweets ts) = s := by
    unfold newestIdOf
    rw [hlast]
    simp [hid]
  refine ⟨n, by rw [hnewest]; exact hnum, hlt, ?_⟩
  intro t ht
  have hts : t ∈ sortTweets ts := hperm.mem_iff.mpr ht
  have hrel := rel_getLast?_of_sorted (sortTweets_sorted ts) hlast t hts
  rw [hnewest]
  unfold tweetLe tweetKey at hrel
  rw [hid] at hrel
  unfold tweetKey
  exact hrel

/-- **C1, witness.** The amended statement on a concrete batch whose ids
all exceed the previous watermark 5. -/
theorem C1_watermark_monotone_witness :
    ∃ n, strToNat? (newestIdOf (sortTweets [idOnlyTweet "12", idOnlyTweet "10"]))
        = some n ∧ 5 < n ∧
      ∀ t ∈ [idOnlyTweet "12", idOnlyTweet "10"],
        lexLeb (tweetKey t)
          (newestIdOf (sortTweets [idOnlyTweet "12", idOnlyTweet "10"])).data = true :=
  C1_watermark_monotone [idOnlyTweet "12", idOnlyTweet "10"] 5 (by simp) (by
    intro t ht
    simp only [List.mem_cons, List.not_mem_nil, or_false] at ht
    rcases ht with rfl | rfl
    · exact ⟨"12", 12, rfl, rfl, by decide⟩
    · exact ⟨"10", 10, rfl, rfl, by decide⟩)

/-- **C2, counterexample.** The batch with ids `"10"` and `"9"` is listed
in the order 10, 9 — numerically *decreasing* — because the sort compares
the id strings lexicographically: the rendered summary does not respect
the numeric order of the identifiers. (The last listed id, `"9"`, does
equal the new watermark.) -/
theorem C2_counterexample :
    (sortTweets [idOnlyTweet "10", idOnlyTweet "9"]).map
        (fun t => (idStrOf t).getD "") = ["10", "9"] ∧
    strToNat? "10" = some 10 ∧ strToNat? "9" = some 9 ∧ ¬ (10 : Nat) < 9 ∧
    newestIdOf (sortTweets [idOnlyTweet "10", idOnlyTweet "9"]) = "9" :=
  ⟨rfl, rfl, rfl, by decide, rfl⟩

/-- **C2 (amended).** For a batch of posts with pairwise-distinct string
ids, the summary lists them in strictly increasing *lexicographic* id
order (which agrees with numeric order exactly when it does, e.g. for
equal-length ids), and the identifier of the last listed post is the
value written to the watermark. -/
theorem C2_summary_lex_increasing (ts : List Json)
    (hids : ∀ t ∈ ts, (idStrOf t).isSome)
    (hnodup : (ts.map tweetKey).Nodup)
    (hne : ts ≠ []) :
    List.Pairwise (fun a b => lexLtb (tweetKey a) (tweetKey b) = true)
      (sortTweets ts) ∧
    ∃ t, (sortTweets ts).getLast? = some t ∧
      idStrOf t = some (newestIdOf (sortTweets ts)) := by
  have hperm := sortTweets_perm ts
  constructor
  · have hsorted : (sortTweets ts).Pairwise tweetLe := sortTweets_sorted ts
    have hnodup' : ((sortTweets ts).map tweetKey).Nodup :=
      ((hperm.map tweetKey).nodup_iff).mpr hnodup
    have hkeyne : (sortTweets ts).Pairwise (fun a b => tweetKey a ≠ tweetKey b) :=
      List.pairwise_map.mp hnodup'
    exact (hsorted.and hkeyne).imp (fun h => lexLtb_of_leb_ne h.1 h.2)
  · have hsne : sortTweets ts ≠ [] := by
      intro h
      rw [h] at hperm
      exact hne (hperm.symm.eq_nil)
    refine ⟨(sortTweets ts).getLast hsne,
      List.getLast?_eq_getLast_of_ne_nil hsne, ?_⟩
    have hmem : (sortTweets ts).getLast hsne ∈ ts :=
      hperm.mem_iff.mp (List.getLast_mem hsne)
    have hsome := hids _ hmem
    unfold newestIdOf
    rw [List.getLast?_eq_getLast_of_ne_nil hsne]
    cases hi : idStrOf ((sortTweets ts).getLast hsne) with
    | some s => simp [hi]
    | none =>
      rw [hi] at hsome
      cases hsome

/-- **C2, witness.** The amended statement on a concrete three-post
batch with distinct ids. -/
theorem C2_summary_lex_increasing_witness :
    List.Pairwise (fun a b => lexLtb (tweetKey a) (tweetKey b) = true)
      (sortTweets [idOnlyTweet "3", idOnlyTweet "1", idOnlyTweet "2"]) ∧
    ∃ t, (sortTweets [idOnlyTweet "3", idOnlyTweet "1", idOnlyTweet "2"]).getLast?
        = some t ∧
      idStrOf t = some (newestIdOf
        (sortTweets [idOnlyTweet "3", idOnlyTweet "1", idOnlyTweet "2"])) :=
  C2_summary_lex_increasing _ (by decide) (by decide) (by simp)
